import Mathlib

/-!
Verification of the mqttloghandler repository: a shallow embedding of
`mqttlogger.py` (the `mqttHandler` logging handler, `establishBroker`,
`makeLogger`) and `examples/old_gist_version.py` (the `post` direct
publisher), together with theorems about the sanitize-and-retry
publishing pipeline.

Strings are embedded as `List Char`.  The broker is modelled as a
function from a publish request to an outcome: either the publish call
returns normally, or it raises a Python exception (tagged with whether
the exception is a `ValueError`, the only type the source distinguishes
in its `except` clauses, and carrying the exception's message string).
-/

namespace Mqttlog

/-- Characters of a string literal. -/
def cstr (s : String) : List Char := s.toList

/-- Python `str.replace(old, new)` restricted to a one-character pattern,
as used throughout the source (`replace("+", "_")`, `replace("#", "_")`,
`replace(".", "/")`): every occurrence of the character `c` is replaced
by `d`, character by character. -/
def replaceChar (c d : Char) (s : List Char) : List Char :=
  s.map (fun x => if x = c then d else x)

/-- The sanitization performed in `post` (old_gist_version.py lines
195-198): `replace("+", "_")` followed by `replace("#", "_")`, applied
to topic and payload alike. -/
def sanitize (s : List Char) : List Char :=
  replaceChar '#' '_' (replaceChar '+' '_' s)

/-- The action of `sanitize` on one character: `+` and `#` become `_`,
every other character is kept. -/
def sanChar (c : Char) : Char :=
  if c = '+' ∨ c = '#' then '_' else c

theorem sanitize_nil : sanitize [] = [] := rfl

theorem sanitize_cons (c : Char) (t : List Char) :
    sanitize (c :: t) = sanChar c :: sanitize t := by
  unfold sanitize replaceChar sanChar
  simp only [List.map_cons]
  by_cases h1 : c = '+'
  · subst h1; simp
  · by_cases h2 : c = '#'
    · subst h2; simp
    · simp [h1, h2]

theorem sanitize_eq_map (s : List Char) : sanitize s = s.map sanChar := by
  induction s with
  | nil => rfl
  | cons c t ih => rw [sanitize_cons, List.map_cons, ih]

theorem sanChar_ne_plus (c : Char) : sanChar c ≠ '+' := by
  unfold sanChar
  by_cases h : c = '+' ∨ c = '#'
  · simp [h]
  · simp only [h, if_false]
    exact fun hc => h (Or.inl hc)

theorem sanChar_ne_hash (c : Char) : sanChar c ≠ '#' := by
  unfold sanChar
  by_cases h : c = '+' ∨ c = '#'
  · simp [h]
  · simp only [h, if_false]
    exact fun hc => h (Or.inr hc)

theorem sanChar_idem (c : Char) : sanChar (sanChar c) = sanChar c := by
  unfold sanChar
  by_cases h : c = '+' ∨ c = '#' <;> simp [h]

/-- C2: for every input string, the sanitization replaces every `+` and
every `#` by `_` and leaves every other character unchanged (it acts as
the per-character map `sanChar`), and the result contains no `+` and no
`#`. -/
theorem sanitize_correct (s : List Char) :
    sanitize s = s.map sanChar ∧ '+' ∉ sanitize s ∧ '#' ∉ sanitize s := by
  refine ⟨sanitize_eq_map s, ?_, ?_⟩
  · rw [sanitize_eq_map]
    intro hmem
    rcases List.mem_map.mp hmem with ⟨a, _, ha⟩
    exact sanChar_ne_plus a ha
  · rw [sanitize_eq_map]
    intro hmem
    rcases List.mem_map.mp hmem with ⟨a, _, ha⟩
    exact sanChar_ne_hash a ha

/-- C10: sanitization is idempotent: a second pass over an
already-sanitized string changes nothing. -/
theorem sanitize_idempotent (s : List Char) :
    sanitize (sanitize s) = sanitize s := by
  induction s with
  | nil => rfl
  | cons c t ih => rw [sanitize_cons, sanitize_cons, ih, sanChar_idem]

/-- A publish request as handed to the paho client: topic, payload,
qos, retain flag. -/
structure PubReq where
  topic : List Char
  payload : List Char
  qos : Nat
  retain : Bool
deriving DecidableEq

/-- The outcome of one publish call against the broker/client library:
either the call returns normally, or it raises a Python exception.
`isValueError` records whether the exception is a `ValueError` (the only
exception type the source's `except` clauses distinguish); `msg` is the
exception's message, `str(error)` in the source. -/
inductive PubOutcome where
  | ok : PubOutcome
  | exn (isValueError : Bool) (msg : List Char) : PubOutcome
deriving DecidableEq

/-- A broker/client behaviour: the outcome of each publish request. -/
abbrev Broker : Type := PubReq → PubOutcome

/-- Configuration of a `mqttHandler` instance: the fields of
`mqttHandler.__init__` that the publish path uses (topic, qos, retain;
the endpoint fields do not affect which request is issued). -/
structure MqttHandlerCfg where
  topic : List Char
  qos : Nat
  retain : Bool
deriving DecidableEq

/-- `mqttHandler(topic=...)` with the source's default keyword values
`qos=1, retain=True` (mqttlogger.py lines 20-33). -/
def mkMqttHandler (topic : List Char) : MqttHandlerCfg :=
  ⟨topic, 1, true⟩

/-- `mqttHandler.emit` (mqttlogger.py lines 48-65): format the record
into `msg` and call `publish.single(self.topic, msg, self.qos,
self.retain, ...)` — with no exception handling.  The result is the
list of publish requests issued and, in the second component, the
message of the exception that escaped `emit`, if the publish call
raised (`none` means `emit` returned normally). -/
def emit (broker : Broker) (h : MqttHandlerCfg) (msg : List Char) :
    List PubReq × Option (List Char) :=
  match broker ⟨h.topic, msg, h.qos, h.retain⟩ with
  | .ok => ([⟨h.topic, msg, h.qos, h.retain⟩], none)
  | .exn _ m => ([⟨h.topic, msg, h.qos, h.retain⟩], some m)

/-- The first publish request of `post`: topic `f'{project}/{topic}'`,
the caller's payload, qos 0, the caller's retain flag. -/
def postReq0 (project topic payload : List Char) (retain : Bool) : PubReq :=
  ⟨project ++ cstr "/" ++ topic, payload, 0, retain⟩

/-- The retry request of `post`: sanitized full topic and payload, qos
escalated to 1, the caller's retain flag. -/
def postReq1 (project topic payload : List Char) (retain : Bool) : PubReq :=
  ⟨sanitize (project ++ cstr "/" ++ topic), sanitize payload, 1, retain⟩

/-- The diagnostic request of `post`: topic `f'{project}/error'`,
payload `str(error)` (the retry's exception message), qos 1,
retain True. -/
def postReq2 (project m : List Char) : PubReq :=
  ⟨project ++ cstr "/error", m, 1, true⟩

/-- `post` (old_gist_version.py lines 174-204).  The full topic is
`f'{project}/{topic}'`.  The first `_client.publish` runs at qos 0 with
the caller's retain; only a `ValueError` is caught there.  On a
`ValueError`, topic and payload are sanitized and republished at qos 1
with the caller's retain; any exception from that retry is caught and
triggers a diagnostic publish of `str(error)` to `f'{project}/error'`
at qos 1, retain True — and that last publish is itself unguarded, so
its exception escapes `post`.  The result is the list of publish
requests issued and the message of the exception that escaped `post`,
if any (`none` means `post` returned normally). -/
def post (broker : Broker) (project topic payload : List Char) (retain : Bool) :
    List PubReq × Option (List Char) :=
  match broker (postReq0 project topic payload retain) with
  | .ok => ([postReq0 project topic payload retain], none)
  | .exn false m => ([postReq0 project topic payload retain], some m)
  | .exn true _ =>
    match broker (postReq1 project topic payload retain) with
    | .ok => ([postReq0 project topic payload retain,
               postReq1 project topic payload retain], none)
    | .exn _ m1 =>
      match broker (postReq2 project m1) with
      | .ok => ([postReq0 project topic payload retain,
                 postReq1 project topic payload retain,
                 postReq2 project m1], none)
      | .exn _ m2 => ([postReq0 project topic payload retain,
                       postReq1 project topic payload retain,
                       postReq2 project m1], some m2)

/-- `post` called with its default `retain=False`
(old_gist_version.py line 174). -/
def postDefault (broker : Broker) (project topic payload : List Char) :
    List PubReq × Option (List Char) :=
  post broker project topic payload false

/-- The module-level `project = __name__` (mqttlogger.py line 11): the
module's import name. -/
def project : List Char := cstr "mqttlogger"

/-- A sink attached by `makeLogger`: the file handler (with its target
path), the console stream handler, or the MQTT handler (with its
configuration). -/
inductive Sink where
  | file (path : List Char) : Sink
  | console : Sink
  | mqtt (cfg : MqttHandlerCfg) : Sink
deriving DecidableEq

/-- `makeLogger(name, log_to_file, log_level)` sink assembly
(mqttlogger.py lines 77-100).  `name` has its dots replaced by slashes;
if `log_to_file`, a file handler is attached at
`Path(ROOT_DIR).joinpath(f"data//{filename}")` with
`filename = f"{timestamp}-TestKit.log"` (pathlib collapses the doubled
separator, so the path reads `rootDir/data/filename`); a stream
(console) handler is always attached; and an MQTT handler with
`topic=f'DVT/{name}'` (qos/retain left at their defaults) is always
attached.  `timestamp` stands for `datetime.now().strftime(...)` and
`rootDir` for `os.environ['ROOT_DIR']`; `log_level` only selects the
format string, which does not affect which sinks are attached. -/
def makeLogger (name : List Char) (log_to_file : Bool)
    (timestamp rootDir : List Char) : List Sink :=
  (if log_to_file then
     [Sink.file (rootDir ++ cstr "/data/" ++ timestamp ++ cstr "-TestKit.log")]
   else []) ++
  [Sink.console,
   Sink.mqtt (mkMqttHandler (cstr "DVT/" ++ replaceChar '.' '/' name))]

/-- Modelled from the spec: the topic the spec's namespace convention
predicts for a log sink, `{project}/{name-with-dots-replaced-by-slashes}/log`. -/
def specLogTopic (proj name : List Char) : List Char :=
  proj ++ cstr "/" ++ replaceChar '.' '/' name ++ cstr "/log"

/-- Process state for the DirectPublisher connection model: how many
broker connections have been created so far, and which client (by id)
is bound as `post`'s default `_client` argument. -/
structure ProcState where
  connections : Nat
  defaultClient : Option Nat
deriving DecidableEq

/-- The state of a fresh process, before the module is loaded. -/
def procInit : ProcState := ProcState.mk 0 none

/-- `establishBroker()` (old_gist_version.py lines 129-138): creates
and connects a new client; returns the new state and the new client's
id. -/
def establishBroker (s : ProcState) : ProcState × Nat :=
  (ProcState.mk (s.connections + 1) s.defaultClient, s.connections)

/-- Loading the module evaluates `post`'s default argument
`_client=establishBroker()` once, at function-definition time (Python
evaluates default-argument expressions when the `def` statement runs,
i.e. at import), and binds the resulting client as the default. -/
def importModule (s : ProcState) : ProcState :=
  ProcState.mk (establishBroker s).1.connections (some (establishBroker s).2)

/-- One call to `post` without an explicit `_client`: it uses the
client bound as the default argument, creating no connection.  Returns
the unchanged state and the id of the client used (`none` if no default
client is bound, which cannot happen once the module is loaded). -/
def callPostDefault (s : ProcState) : ProcState × Option Nat :=
  (s, s.defaultClient)

/-- `n` successive calls to `post` with the default client: the final
state and the list of client ids used, in order. -/
def runPostsDefault : Nat → ProcState → ProcState × List (Option Nat)
  | 0, s => (s, [])
  | n + 1, s =>
    ((runPostsDefault n (callPostDefault s).1).1,
     (callPostDefault s).2 :: (runPostsDefault n (callPostDefault s).1).2)

/-- Modelled from the spec: "lazily created on first call and reused
thereafter" — under the spec's reading, loading the module creates no
connection; the first `post` call would create it. -/
def importModuleLazySpec (s : ProcState) : ProcState := s

/-- A broker that is unreachable: every publish call raises a
connection error, which is not a `ValueError`. -/
def refusedBroker : Broker :=
  fun _ => PubOutcome.exn false (cstr "connection refused")

/-- A broker behaviour where the initial qos-0 attempt raises a
`ValueError` (wildcard in topic) and the sanitized qos-1 retry
succeeds. -/
def wildcardBroker : Broker := fun r =>
  if r.qos = 0 then PubOutcome.exn true (cstr "wildcard") else PubOutcome.ok

/-- A broker behaviour where the first attempt raises a `ValueError`,
the sanitized retry raises a non-`ValueError`, and the diagnostic
publish to `proj/error` succeeds. -/
def diagOkBroker : Broker := fun r =>
  if r.topic = cstr "proj/error" then PubOutcome.ok
  else if r.qos = 0 then PubOutcome.exn true (cstr "wildcard")
  else PubOutcome.exn false (cstr "retry failed")

/-- A broker behaviour where every attempt fails: the first with a
`ValueError`, the retry and the diagnostic publish with other
exceptions. -/
def allFailBroker : Broker := fun r =>
  if r.topic = cstr "proj/error" then PubOutcome.exn false (cstr "diag failed")
  else if r.qos = 0 then PubOutcome.exn true (cstr "wildcard")
  else PubOutcome.exn false (cstr "retry failed")

/-- Every branch of `post` issues the first qos-0 request first. -/
theorem post_head (broker : Broker) (proj topic payload : List Char)
    (retain : Bool) :
    (post broker proj topic payload retain).1.head?
      = some (postReq0 proj topic payload retain) := by
  cases hb : broker (postReq0 proj topic payload retain) with
  | ok => simp [post, hb]
  | exn b m =>
    cases b
    · simp [post, hb]
    · cases h1 : broker (postReq1 proj topic payload retain) with
      | ok => simp [post, hb, h1]
      | exn b1 m1 =>
        cases h2 : broker (postReq2 proj m1) <;> simp [post, hb, h1, h2]

/-- C1 counterexample: with an unreachable broker, `emit` does not
return normally — the publish exception escapes `emit` into its caller,
contradicting the claim that `emit` never raises for any broker
state. -/
theorem emit_raises_when_unreachable :
    (emit refusedBroker (mkMqttHandler (cstr "DVT/test")) (cstr "hello")).2
      = some (cstr "connection refused") := by decide

/-- `emit` issues exactly the one request built from its handler. -/
theorem emit_trace (broker : Broker) (h : MqttHandlerCfg) (msg : List Char) :
    (emit broker h msg).1 = [⟨h.topic, msg, h.qos, h.retain⟩] := by
  unfold emit
  cases hb : broker ⟨h.topic, msg, h.qos, h.retain⟩ <;> simp

/-- `emit` returns normally iff its single publish call does not
raise. -/
theorem emit_ok_iff (broker : Broker) (h : MqttHandlerCfg) (msg : List Char) :
    (emit broker h msg).2 = none ↔
      broker ⟨h.topic, msg, h.qos, h.retain⟩ = PubOutcome.ok := by
  unfold emit
  cases hb : broker ⟨h.topic, msg, h.qos, h.retain⟩ <;> simp

/-- C1 (amended): `emit` performs exactly one publish attempt, with the
handler's configured topic, qos and retain, and returns no value; it
returns normally iff that single publish call does not raise — when the
publish call raises (for example because the broker is unreachable),
the exception propagates to `emit`'s caller. -/
theorem emit_single_attempt (broker : Broker) (h : MqttHandlerCfg)
    (msg : List Char) :
    (emit broker h msg).1 = [⟨h.topic, msg, h.qos, h.retain⟩] ∧
    ((emit broker h msg).2 = none ↔
      broker ⟨h.topic, msg, h.qos, h.retain⟩ = PubOutcome.ok) :=
  ⟨emit_trace broker h msg, emit_ok_iff broker h msg⟩

/-- C5 counterexample: a non-`ValueError` failure on the first publish
attempt (for example a connection error) is not recovered: the
exception escapes `post` into the caller, contradicting the claim that
`post` recovers every failure kind other than configuration errors. -/
theorem post_raises_on_transport_failure :
    (post refusedBroker (cstr "proj") (cstr "t") (cstr "pay") false).2
      = some (cstr "connection refused") := by decide

/-- C5 (amended): `post` returns normally exactly when the first
attempt succeeds, or the first attempt raises a `ValueError` and the
sanitized retry succeeds, or the retry also raises and the diagnostic
publish succeeds.  In every other case — in particular a
non-`ValueError` failure on the first attempt, or a failure of the
diagnostic publish — the exception propagates to the caller. -/
theorem post_recovery_characterization (broker : Broker)
    (proj topic payload : List Char) (retain : Bool) :
    (post broker proj topic payload retain).2 = none ↔
      (broker (postReq0 proj topic payload retain) = PubOutcome.ok ∨
        ∃ m, broker (postReq0 proj topic payload retain) = PubOutcome.exn true m ∧
          (broker (postReq1 proj topic payload retain) = PubOutcome.ok ∨
            ∃ b m1, broker (postReq1 proj topic payload retain) = PubOutcome.exn b m1 ∧
              broker (postReq2 proj m1) = PubOutcome.ok)) := by
  cases hb : broker (postReq0 proj topic payload retain) with
  | ok => simp [post, hb]
  | exn b m =>
    cases b
    · simp [post, hb]
    · cases h1 : broker (postReq1 proj topic payload retain) with
      | ok => simp [post, hb, h1]
      | exn b1 m1 =>
        cases b1 <;> cases h2 : broker (postReq2 proj m1) <;>
          simp [post, hb, h1, h2]

/-- C7: the default publish parameters are qos 1 and retain True for
log-record emission through `mqttHandler` (its constructor defaults),
and qos 0 and retain False for ad-hoc posts through `post` (the qos-0
literal in its first publish call and its `retain=False` default). -/
theorem default_qos_retain (broker : Broker)
    (topic msg proj t payload : List Char) :
    (mkMqttHandler topic).qos = 1 ∧ (mkMqttHandler topic).retain = true ∧
    (emit broker (mkMqttHandler topic) msg).1 = [⟨topic, msg, 1, true⟩] ∧
    (postDefault broker proj t payload).1.head?
      = some ⟨proj ++ cstr "/" ++ t, payload, 0, false⟩ := by
  refine ⟨rfl, rfl, ?_, ?_⟩
  · exact emit_trace broker (mkMqttHandler topic) msg
  · exact post_head broker proj t payload false

/-- C3: when the first publish attempt of `post` fails with a
`ValueError` (topic-validity error), exactly one retry is performed,
and that retry publishes the sanitized full topic and the sanitized
payload, with qos escalated to 1 and the caller's original retain flag
unchanged: the request trace is exactly the original request followed
by the sanitized qos-1 request, possibly followed by the one fixed
diagnostic request — never a second retry. -/
theorem post_retry_sanitized (broker : Broker) (proj topic payload : List Char)
    (retain : Bool) (m : List Char)
    (h : broker (postReq0 proj topic payload retain) = PubOutcome.exn true m) :
    (post broker proj topic payload retain).1
        = [postReq0 proj topic payload retain,
           ⟨sanitize (proj ++ cstr "/" ++ topic), sanitize payload, 1, retain⟩] ∨
    ∃ p, (post broker proj topic payload retain).1
        = [postReq0 proj topic payload retain,
           ⟨sanitize (proj ++ cstr "/" ++ topic), sanitize payload, 1, retain⟩,
           ⟨proj ++ cstr "/error", p, 1, true⟩] := by
  cases h1 : broker (postReq1 proj topic payload retain) with
  | ok =>
    left
    simp only [post, h, h1]
    rfl
  | exn b1 m1 =>
    right
    refine ⟨m1, ?_⟩
    cases h2 : broker (postReq2 proj m1) <;> simp only [post, h, h1, h2] <;> rfl

/-- Witness for C3 at a concrete input: project `proj`, topic `a#b`,
payload `pay`, retain `false`, against a broker whose qos-0 call raises
a `ValueError` and whose sanitized retry succeeds. -/
theorem post_retry_sanitized_witness :
    (post wildcardBroker (cstr "proj") (cstr "a#b") (cstr "pay") false).1
        = [postReq0 (cstr "proj") (cstr "a#b") (cstr "pay") false,
           ⟨sanitize (cstr "proj" ++ cstr "/" ++ cstr "a#b"), sanitize (cstr "pay"), 1, false⟩] ∨
    ∃ p, (post wildcardBroker (cstr "proj") (cstr "a#b") (cstr "pay") false).1
        = [postReq0 (cstr "proj") (cstr "a#b") (cstr "pay") false,
           ⟨sanitize (cstr "proj" ++ cstr "/" ++ cstr "a#b"), sanitize (cstr "pay"), 1, false⟩,
           ⟨cstr "proj" ++ cstr "/error", p, 1, true⟩] :=
  post_retry_sanitized wildcardBroker (cstr "proj") (cstr "a#b") (cstr "pay")
    false (cstr "wildcard") (by decide)

/-- C4 counterexample: when every publish fails (first with a
`ValueError`, then the retry, then the diagnostic publish), the
diagnostic publish's exception escapes `post` into the caller — the
failure is not silently dropped, contradicting the claim. -/
theorem post_diag_failure_raises :
    (post allFailBroker (cstr "proj") (cstr "t") (cstr "pay") false).2
      = some (cstr "diag failed") := by decide

/-- C4 (amended): if the sanitized retry also fails, the retry's
failure message is published as a string to the fixed topic
`{project}/error` with qos 1 and retain True; but if that diagnostic
publish itself fails, its exception propagates to the caller rather
than being silently dropped — `post` returns normally iff the
diagnostic publish succeeds. -/
theorem post_diag_publish (broker : Broker) (proj topic payload : List Char)
    (retain : Bool) (m0 : List Char) (b1 : Bool) (m1 : List Char)
    (h0 : broker (postReq0 proj topic payload retain) = PubOutcome.exn true m0)
    (h1 : broker (postReq1 proj topic payload retain) = PubOutcome.exn b1 m1) :
    (post broker proj topic payload retain).1
        = [postReq0 proj topic payload retain,
           postReq1 proj topic payload retain,
           ⟨proj ++ cstr "/error", m1, 1, true⟩] ∧
    ((post broker proj topic payload retain).2 = none ↔
      broker ⟨proj ++ cstr "/error", m1, 1, true⟩ = PubOutcome.ok) := by
  cases h2 : broker (postReq2 proj m1) with
  | ok =>
    have h2' := h2
    simp only [postReq2] at h2'
    simp only [post, h0, h1, h2]
    simp [h2', postReq2]
  | exn b2 m2 =>
    have h2' := h2
    simp only [postReq2] at h2'
    simp only [post, h0, h1, h2]
    simp [h2', postReq2]

/-- Witness for C4's amended theorem at a concrete input: project
`proj`, topic `t`, payload `pay`, retain `false`, against a broker
whose first call raises a `ValueError`, whose retry raises a
non-`ValueError`, and whose diagnostic publish succeeds. -/
theorem post_diag_publish_witness :
    (post diagOkBroker (cstr "proj") (cstr "t") (cstr "pay") false).1
        = [postReq0 (cstr "proj") (cstr "t") (cstr "pay") false,
           postReq1 (cstr "proj") (cstr "t") (cstr "pay") false,
           ⟨cstr "proj" ++ cstr "/error", cstr "retry failed", 1, true⟩] ∧
    ((post diagOkBroker (cstr "proj") (cstr "t") (cstr "pay") false).2 = none ↔
      diagOkBroker ⟨cstr "proj" ++ cstr "/error", cstr "retry failed", 1, true⟩
        = PubOutcome.ok) :=
  post_diag_publish diagOkBroker (cstr "proj") (cstr "t") (cstr "pay") false
    (cstr "wildcard") false (cstr "retry failed") (by decide) (by decide)

/-- C6 counterexample: `makeLogger("x.y.z")` attaches an MQTT sink
whose topic is `DVT/x/y/z` — the literal prefix `DVT`, not the project
namespace, and no `/log` suffix — which differs from the
`{project}/x/y/z/log` topic the claim states. -/
theorem makeLogger_topic_counterexample :
    makeLogger (cstr "x.y.z") false (cstr "20260101-000000") (cstr "/root")
      = [Sink.console, Sink.mqtt (mkMqttHandler (cstr "DVT/x/y/z"))] ∧
    cstr "DVT/x/y/z" ≠ specLogTopic project (cstr "x.y.z") := by decide

/-- C6 (amended): for every dotted logger name, `makeLogger` attaches
an MQTT sink whose publish topic is the literal prefix `DVT/` followed
by the name with dots replaced by slashes, with no `/log` suffix; in
particular `makeLogger("x.y.z")` publishes to topic `DVT/x/y/z`. -/
theorem makeLogger_mqtt_topic (name : List Char) (ltf : Bool)
    (ts root : List Char) :
    Sink.mqtt (mkMqttHandler (cstr "DVT/" ++ replaceChar '.' '/' name))
      ∈ makeLogger name ltf ts root := by
  cases ltf <;> simp [makeLogger]

/-- C8: the logger assembled by `makeLogger` has a console sink always,
a file sink iff `log_to_file` is true (with the timestamped filename
under the configured root directory), and an MQTT sink always. -/
theorem makeLogger_sinks (name : List Char) (ltf : Bool)
    (ts root : List Char) :
    Sink.console ∈ makeLogger name ltf ts root ∧
    ((∃ p, Sink.file p ∈ makeLogger name ltf ts root) ↔ ltf = true) ∧
    Sink.file (root ++ cstr "/data/" ++ ts ++ cstr "-TestKit.log")
      ∈ makeLogger name true ts root ∧
    ∃ cfg, Sink.mqtt cfg ∈ makeLogger name ltf ts root := by
  cases ltf <;> simp [makeLogger]

/-- C9 counterexample: after the module is loaded and before any call
to `post`, the shared broker connection already exists (one connection
has been created), whereas the claimed lazy creation at first call
would leave zero connections at that point. -/
theorem post_client_not_lazy :
    (importModule procInit).connections = 1 ∧
    (importModuleLazySpec procInit).connections = 0 := by decide

/-- C9 (amended): the shared connection is created exactly once, when
the module is loaded (Python evaluates `post`'s default argument
`_client=establishBroker()` at function-definition time, not at the
first call), and every subsequent call to `post` with the default
client reuses that same connection for the lifetime of the process. -/
theorem post_client_reused (n : Nat) :
    (runPostsDefault n (importModule procInit)).1.connections = 1 ∧
    (runPostsDefault n (importModule procInit)).2
      = List.replicate n (some 0) := by
  have key : ∀ m : Nat, runPostsDefault m (importModule procInit)
      = (importModule procInit, List.replicate m (some 0)) := by
    intro m
    induction m with
    | zero => rfl
    | succ k ih =>
      simp only [runPostsDefault, callPostDefault]
      rw [ih]
      simp [importModule, establishBroker, procInit, List.replicate_succ]
  rw [key n]
  exact ⟨rfl, rfl⟩

end Mqttlog
